import Mathlib

/-!
Verification of the transcode-job orchestration pipeline of a Node.js
media service.  The development shallowly embeds, from the JavaScript
source:

* the configuration resolver of `src/utils/ffmpeg-utils.js`
  (codec and preset tables, filter-chain generation, output validation,
  `createTranscodingConfig`);
* the job orchestrator endpoints of `src/routes`' video controller
  (`transcodeStart`, `getJobStatus`, `jobCallback`) over a pure model of
  the SQLite job store (`readOne` / `create` / `update` keyed by job id);
* the worker execution pipeline of
  `src/workers/video-transcode-worker.js` (`processVideoFile`) over an
  abstract blob store.

JavaScript-specific semantics that the claims depend on are modelled
explicitly: object-key insertion order (association lists with
last-binding-wins lookup), truthiness of numbers and strings (zero and
the empty string are falsy), and `||` defaulting.
-/

/-! ## Codec and preset tables (`ffmpeg-utils.js`) -/

/-- Bounds of the engine quality parameter of a codec
(`VIDEO_CODECS[*].quality`). -/
structure QualityBounds where
  min : Int
  max : Int
  default : Int
  deriving DecidableEq

/-- Fallback values of a codec (`VIDEO_CODECS[*].default`). -/
structure CodecDefaults where
  crf : Int
  preset : String
  width : Int
  height : Int
  deriving DecidableEq

/-- One entry of the `VIDEO_CODECS` table. -/
structure VideoCodec where
  name : String
  extension : String
  quality : QualityBounds
  presets : List String
  default : CodecDefaults
  deriving DecidableEq

/-- The `VIDEO_CODECS` table: only `av1` is configured. -/
def VIDEO_CODECS : String → Option VideoCodec := fun codec =>
  if codec = "av1" then
    some
      { name := "libsvtav1"
        extension := "mp4"
        quality := { min := 0, max := 63, default := 49 }
        presets := ["0", "1", "2", "3", "4", "5", "6", "7", "8", "9", "10",
          "11", "12", "13"]
        default := { crf := 60, preset := "16", width := 896, height := 504 } }
  else none

/-- Default of an audio codec (`AUDIO_CODECS[*].default`). -/
structure AudioDefault where
  bitrate : String
  deriving DecidableEq

/-- One entry of the `AUDIO_CODECS` table. -/
structure AudioCodec where
  name : String
  bitrates : List String
  default : AudioDefault
  deriving DecidableEq

/-- The `AUDIO_CODECS` table: only `aac` is configured. -/
def AUDIO_CODECS : String → Option AudioCodec := fun codec =>
  if codec = "aac" then
    some
      { name := "aac"
        bitrates := ["96k", "128k", "320k"]
        default := { bitrate := "96k" } }
  else none

/-! ## Filter configuration objects

A JavaScript filter-configuration object is embedded as an association
list of entries in insertion order; property access returns the LAST
binding of a key (later duplicate keys of an object literal win). -/

/-- Options of the `scale` filter (`generateScaleFilter` options).
`maintainAspect` carries the source's maintain-aspect-ratio flag. -/
structure ScaleOptions where
  maintainAspect : Bool := true
  force : Bool := false
  algorithm : String := "bicubic"
  deriving DecidableEq

/-- The `scale` member of a filter configuration. -/
structure ScaleFilter where
  width : Int
  height : Int
  options : ScaleOptions := {}
  deriving DecidableEq

/-- The `crop` member of a filter configuration (x and y default to 0). -/
structure CropFilter where
  width : Int
  height : Int
  x : Int := 0
  y : Int := 0
  deriving DecidableEq

/-- The `pad` member of a filter configuration. -/
structure PadFilter where
  width : Int
  height : Int
  x : Int := 0
  y : Int := 0
  color : String := "black"
  deriving DecidableEq

/-- One key/value binding of a filter-configuration object. -/
inductive FilterEntry where
  | scale (f : ScaleFilter)
  | fps (n : Int)
  | deinterlace (b : Bool)
  | denoise (strength : Option String)
  | crop (c : CropFilter)
  | pad (p : PadFilter)
  | custom (args : List String)
  deriving DecidableEq

/-- A filter-configuration object: bindings in insertion order. -/
abbrev FilterObj := List FilterEntry

/-- The property key of a binding, as a small code. -/
def filterKey : FilterEntry → Nat
  | .scale _ => 0
  | .fps _ => 1
  | .deinterlace _ => 2
  | .denoise _ => 3
  | .crop _ => 4
  | .pad _ => 5
  | .custom _ => 6

/-- Property access on a filter object: the last binding of a key wins,
as for duplicate keys of a JavaScript object literal. -/
def lookupKey (t : Nat) (fo : FilterObj) : Option FilterEntry :=
  (fo.filter (fun e => filterKey e == t)).getLast?

/-- `filters.scale`. -/
def getScale (fo : FilterObj) : Option ScaleFilter :=
  match lookupKey 0 fo with
  | some (.scale s) => some s
  | _ => none

/-- `filters.fps`. -/
def getFps (fo : FilterObj) : Option Int :=
  match lookupKey 1 fo with
  | some (.fps n) => some n
  | _ => none

/-- `filters.deinterlace`. -/
def getDeinterlace (fo : FilterObj) : Option Bool :=
  match lookupKey 2 fo with
  | some (.deinterlace b) => some b
  | _ => none

/-- `filters.denoise` (with its optional `strength`). -/
def getDenoise (fo : FilterObj) : Option (Option String) :=
  match lookupKey 3 fo with
  | some (.denoise s) => some s
  | _ => none

/-- `filters.crop`. -/
def getCrop (fo : FilterObj) : Option CropFilter :=
  match lookupKey 4 fo with
  | some (.crop c) => some c
  | _ => none

/-- `filters.pad`. -/
def getPad (fo : FilterObj) : Option PadFilter :=
  match lookupKey 5 fo with
  | some (.pad p) => some p
  | _ => none

/-- `filters.custom`. -/
def getCustom (fo : FilterObj) : Option (List String) :=
  match lookupKey 6 fo with
  | some (.custom args) => some args
  | _ => none

/-! ## Quality presets -/

/-- The caller-override object of `createTranscodingConfig`'s `advanced`
option, and the `advanced` member of a preset.  The fields are the keys
the presets carry (`additionalArgs`) together with the numeric output
keys that the spread `...mutateAdvanced` can override and
`validateOutput` inspects. -/
structure Advanced where
  additionalArgs : Option (List String) := none
  crf : Option Int := none
  width : Option Int := none
  height : Option Int := none
  framerate : Option Int := none
  deriving DecidableEq

/-- `JSON.stringify(advanced) === "\x7b\x7d"`: no keys present. -/
def Advanced.isEmptyObj (a : Advanced) : Bool :=
  a.additionalArgs.isNone && a.crf.isNone && a.width.isNone &&
    a.height.isNone && a.framerate.isNone

/-- One entry of the `QUALITY_TO_PRESETS` table. -/
structure QualityPreset where
  width : Int
  height : Int
  crf : Int
  preset : String
  filters : FilterObj
  advanced : Advanced
  audioBitrate : Option String := none
  deriving DecidableEq

/-- The `QUALITY_TO_PRESETS` table. -/
def QUALITY_TO_PRESETS : String → Option QualityPreset := fun quality =>
  if quality = "1080p60av1" then
    some
      { width := 1920, height := 1080, crf := 49, preset := "10"
        filters := [.fps 60]
        advanced :=
          { additionalArgs := some ["-svtav1-params",
              "hierarchical-levels=3:keyint=180:lookahead=11:lp=14:scm=0"] } }
  else if quality = "1080p30av1" then
    some
      { width := 1920, height := 1080, crf := 49, preset := "10"
        filters := [.fps 30]
        advanced :=
          { additionalArgs := some ["-svtav1-params",
              "hierarchical-levels=2:keyint=90:lookahead=11:lp=10:scm=0:enable-tf=0"] } }
  else if quality = "720p30av1" then
    some
      { width := 1280, height := 720, crf := 49, preset := "12"
        filters := [.fps 30]
        advanced :=
          { additionalArgs := some ["-svtav1-params",
              "hierarchical-levels=2:keyint=90:lookahead=11:lp=10:scm=0:enable-tf=0"] } }
  else none

/-! ## Filter-chain generation -/

/-- `generateScaleFilter(targetWidth, targetHeight, options)`. -/
def generateScaleFilter (targetWidth targetHeight : Int)
    (options : ScaleOptions) : String :=
  if options.maintainAspect && !options.force then
    "scale=" ++ toString targetWidth ++ ":" ++ toString targetHeight ++
      ":force_original_aspect_ratio=decrease:flags=" ++ options.algorithm
  else
    "scale=" ++ toString targetWidth ++ ":" ++ toString targetHeight ++
      ":flags=" ++ options.algorithm

/-- The filter chain `generateVideoFilters` builds, in the fixed source
order: scale, fps, deinterlace, denoise, crop, pad, custom.  Falsy
member values (`fps: 0`, `deinterlace: false`) are skipped, as in the
source's truthiness tests. -/
def filterChainOf (filters : FilterObj) : List String :=
  (match getScale filters with
    | some s => [generateScaleFilter s.width s.height s.options]
    | none => []) ++
  (match getFps filters with
    | some n => if n ≠ 0 then ["fps=" ++ toString n] else []
    | none => []) ++
  (match getDeinterlace filters with
    | some true => ["yadif"]
    | _ => []) ++
  (match getDenoise filters with
    | some strength =>
      ["hqdn3d=" ++
        (match strength with
          | some s => if s ≠ "" then s else "default"
          | none => "default")]
    | none => []) ++
  (match getCrop filters with
    | some c =>
      ["crop=" ++ toString c.width ++ ":" ++ toString c.height ++ ":" ++
        toString c.x ++ ":" ++ toString c.y]
    | none => []) ++
  (match getPad filters with
    | some p =>
      ["pad=" ++ toString p.width ++ ":" ++ toString p.height ++ ":" ++
        toString p.x ++ ":" ++ toString p.y ++ ":" ++ p.color]
    | none => []) ++
  (match getCustom filters with
    | some args => args
    | none => [])

/-- `generateVideoFilters(filters)`: `["-vf", chain.join(",")]` when the
chain is non-empty, `[]` otherwise. -/
def generateVideoFilters (filters : FilterObj) : List String :=
  let filterChain := filterChainOf filters
  if filterChain = [] then [] else ["-vf", String.intercalate "," filterChain]

/-! ## Input and output validation -/

/-- The `input` option of `createTranscodingConfig`. -/
structure InputCfg where
  path : String
  deriving DecidableEq

/-- `validateInput(input)`: the path must be truthy (non-empty). -/
def validateInput (input : InputCfg) : Except String Unit :=
  if input.path = "" then .error "Input path is required" else .ok ()

/-- The resolved `config.output` object. -/
structure OutputCfg where
  videoCodec : String
  audioCodec : String
  format : String
  crf : Int
  preset : String
  width : Int
  height : Int
  audioBitrate : String
  framerate : Option Int := none
  additionalArgs : Option (List String) := none
  deriving DecidableEq

/-- The framerate guard of `validateOutput`: the key is present, truthy
(non-zero) and non-positive. -/
def framerateBad : Option Int → Bool
  | none => false
  | some f => decide (f ≠ 0 ∧ f ≤ 0)

/-- `validateOutput(output)`.  Each guard first tests JavaScript
truthiness of the value (zero is falsy and skips the check), then the
range; a violation throws an error naming the field. -/
def validateOutput (o : OutputCfg) : Except String Unit :=
  if o.width ≠ 0 ∧ o.width ≤ 0 then
    .error "Output width must be a positive number"
  else if o.height ≠ 0 ∧ o.height ≤ 0 then
    .error "Output height must be a positive number"
  else if framerateBad o.framerate then
    .error "Output framerate must be a positive number"
  else if o.crf ≠ 0 ∧ (o.crf < 0 ∨ o.crf > 51) then
    .error "CRF must be a number between 0 and 51"
  else .ok ()

/-! ## Configuration resolution (`createTranscodingConfig`) -/

/-- The options object of `createTranscodingConfig`, with the source's
destructuring defaults. -/
structure TranscodeOptions where
  input : InputCfg
  quality : String := "720p30av1"
  videoCodec : String := "av1"
  audioCodec : String := "aac"
  format : String := "mp4"
  filters : FilterObj := []
  advanced : Advanced := {}
  deriving DecidableEq

/-- JavaScript `x || d` over an optionally-present number: `0` is falsy. -/
def jsOrInt (x : Option Int) (d : Int) : Int :=
  match x with
  | some v => if v ≠ 0 then v else d
  | none => d

/-- JavaScript `x || d` over an optionally-present string: `""` is falsy. -/
def jsOrStr (x : Option String) (d : String) : String :=
  match x with
  | some v => if v ≠ "" then v else d
  | none => d

/-- The `mutateFilters` step: an empty caller object is replaced
wholesale by the preset's `filters`; reading `.filters` of an undefined
preset entry is the source's TypeError. -/
def resolveFilters (filters : FilterObj) (qualityConfig : Option QualityPreset) :
    Except String FilterObj :=
  if filters = [] then
    match qualityConfig with
    | some q => .ok q.filters
    | none =>
      .error "TypeError: Cannot read properties of undefined (reading 'filters')"
  else .ok filters

/-- The `mutateAdvanced` step, as `resolveFilters` for the `advanced`
object. -/
def resolveAdvanced (advanced : Advanced) (qualityConfig : Option QualityPreset) :
    Except String Advanced :=
  if advanced.isEmptyObj then
    match qualityConfig with
    | some q => .ok q.advanced
    | none =>
      .error "TypeError: Cannot read properties of undefined (reading 'advanced')"
  else .ok advanced

/-- The object spread `\x7b ..., ...mutateAdvanced \x7d`: every key
present in the advanced object overrides the already-built output key. -/
def applyAdvanced (o : OutputCfg) (a : Advanced) : OutputCfg :=
  { o with
    crf := a.crf.getD o.crf
    width := a.width.getD o.width
    height := a.height.getD o.height
    framerate := match a.framerate with | some v => some v | none => o.framerate
    additionalArgs :=
      match a.additionalArgs with | some v => some v | none => o.additionalArgs }

/-- The result of `createTranscodingConfig`. -/
structure TranscodingConfig where
  input : InputCfg
  output : OutputCfg
  deriving DecidableEq

/-- `createTranscodingConfig(options)`: look the codec and preset tables
up, substitute empty overrides, build the output object (preset values
first, codec defaults via `||`, then the advanced spread and the
generated filter arguments) and validate it. -/
def createTranscodingConfig (options : TranscodeOptions) :
    Except String TranscodingConfig :=
  match validateInput options.input with
  | .error e => .error e
  | .ok _ =>
    let qualityConfig := QUALITY_TO_PRESETS options.quality
    match VIDEO_CODECS options.videoCodec with
    | none => .error ("Unsupported video codec: " ++ options.videoCodec)
    | some videoCodecConfig =>
      match AUDIO_CODECS options.audioCodec with
      | none => .error ("Unsupported audio codec: " ++ options.audioCodec)
      | some audioCodecConfig =>
        match resolveFilters options.filters qualityConfig with
        | .error e => .error e
        | .ok mutateFilters =>
          match resolveAdvanced options.advanced qualityConfig with
          | .error e => .error e
          | .ok mutateAdvanced =>
            let out0 : OutputCfg :=
              { videoCodec := videoCodecConfig.name
                audioCodec := audioCodecConfig.name
                format := options.format
                crf := jsOrInt (qualityConfig.map (·.crf))
                  videoCodecConfig.default.crf
                preset := jsOrStr (qualityConfig.map (·.preset))
                  videoCodecConfig.default.preset
                width := jsOrInt (qualityConfig.map (·.width))
                  videoCodecConfig.default.width
                height := jsOrInt (qualityConfig.map (·.height))
                  videoCodecConfig.default.height
                audioBitrate := jsOrStr (qualityConfig.bind (·.audioBitrate))
                  audioCodecConfig.default.bitrate }
            let out1 := applyAdvanced out0 mutateAdvanced
            let filterArgs := generateVideoFilters mutateFilters
            let out2 :=
              if filterArgs = [] then out1
              else { out1 with
                additionalArgs := some ((out1.additionalArgs.getD []) ++ filterArgs) }
            match validateOutput out2 with
            | .error e => .error e
            | .ok _ => .ok { input := options.input, output := out2 }

/-! ## Output-locator computation (`transcodeStart`, via `path.parse`) -/

/-- Split a character list at the LAST occurrence of `c`:
`splitAtLast c l = some (pre, post)` with `l = pre ++ c :: post` and
`c ∉ post`; `none` when `c` does not occur. -/
def splitAtLast (c : Char) : List Char → Option (List Char × List Char)
  | [] => none
  | x :: xs =>
    match splitAtLast c xs with
    | some (pre, post) => some (x :: pre, post)
    | none => if x = c then some ([], xs) else none

/-- `path.parse(p).dir` and `.base` (posix): split at the last slash. -/
def parseDirBase (p : List Char) : List Char × List Char :=
  match splitAtLast '/' p with
  | some (dir, base) => (dir, base)
  | none => ([], p)

/-- `path.parse(p).name` and `.ext` of a base name: the extension starts
at the last dot, unless that dot is the first character (dotfiles have
no extension). -/
def parseNameExt (base : List Char) : List Char × List Char :=
  match splitAtLast '.' base with
  | some (pre, post) => if pre = [] then (base, []) else (pre, '.' :: post)
  | none => (base, [])

/-- The deterministic output locator of `transcodeStart`:
`dir/name_preset.ext`, with the directory joined back only when
non-empty (the source's `dir ? ... : ...`). -/
def computeOutputS3Key (s3Key resolutionPreset : String) : String :=
  let (dir, base) := parseDirBase s3Key.data
  let (nameWithoutExt, ext) := parseNameExt base
  let newFilename :=
    nameWithoutExt ++ ('_' :: resolutionPreset.data) ++ ext
  if dir = [] then String.mk newFilename
  else String.mk (dir ++ '/' :: newFilename)

/-- `path.basename`: the part after the last slash. -/
def basenameOf (s3Key : String) : String :=
  String.mk (parseDirBase s3Key.data).2

/-! ## The job store model

The SQLite `transcoding_jobs` table is a list of rows; `readOne` is the
data-access layer's `SELECT ... LIMIT 1` (first match), `createRow` its
`INSERT` (append), `updateRows` its `UPDATE ... WHERE job_id = ?`
(every matching row). -/

/-- The detail object a worker callback carries.  `jobCallback` reads
only `detail.outputS3Key`; the other keys are those the worker fills. -/
structure CallbackDetail where
  inputS3Key : Option String := none
  outputS3Key : Option String := none
  quality : Option String := none
  jobId : Option String := none
  errorStack : String := ""
  deriving DecidableEq

/-- The body of a worker callback request: `\x7bsuccess, detail\x7d`. -/
structure CallbackBody where
  success : Bool
  detail : Option CallbackDetail := none
  deriving DecidableEq

/-- One row of the `transcoding_jobs` table. -/
structure JobRow where
  job_id : String
  job_state : String
  input_s3_key : String
  output_s3_key : String
  target_quality : String
  submit_ts : Nat
  callback_data : Option CallbackBody := none
  deriving DecidableEq

/-- The job store: the rows of `transcoding_jobs` in insertion order. -/
abbrev JobStore := List JobRow

/-- `dataAccess.readOne("transcoding_jobs", \x7bjob_id\x7d)`. -/
def readOne (store : JobStore) (jobId : String) : Option JobRow :=
  store.find? (fun r => r.job_id == jobId)

/-- `dataAccess.create("transcoding_jobs", jobData)`. -/
def createRow (store : JobStore) (row : JobRow) : JobStore :=
  store ++ [row]

/-- `dataAccess.update("transcoding_jobs", data, \x7bjob_id\x7d)`. -/
def updateRows (store : JobStore) (jobId : String) (f : JobRow → JobRow) :
    JobStore :=
  store.map (fun r => if r.job_id == jobId then f r else r)

/-! ## The orchestrator endpoints -/

/-- The terminal states, as the source's `termState` array. -/
def termState : List String := ["failed", "completed"]

/-- The body `getJobStatus` answers with on a known job. -/
structure StatusView where
  jobId : String
  state : String
  callback : Option CallbackBody := none
  deriving DecidableEq

/-- The response of `getJobStatus`. -/
inductive GsResp where
  | notFound
  | ok (view : StatusView)
  deriving DecidableEq

/-- `getJobStatus`: 404 on an unknown id; otherwise the id and state,
plus the parsed callback payload when the state is terminal and
`callback_data` is non-null. -/
def getJobStatus (store : JobStore) (jobId : String) : GsResp :=
  match readOne store jobId with
  | none => .notFound
  | some job =>
    if job.job_state ∈ termState then
      match job.callback_data with
      | some callbackData =>
        .ok { jobId := job.job_id, state := job.job_state,
              callback := some callbackData }
      | none => .ok { jobId := job.job_id, state := job.job_state }
    else .ok { jobId := job.job_id, state := job.job_state }

/-- JavaScript `String.prototype.trim()`: strip leading and trailing
whitespace. -/
def jsTrim (s : String) : String :=
  String.mk
    (((s.data.dropWhile Char.isWhitespace).reverse.dropWhile
      Char.isWhitespace).reverse)

/-- The request body of `transcodeStart`; an absent field is `none` and
the empty string is falsy. -/
structure StartReq where
  s3Key : Option String := none
  resolutionPreset : Option String := none
  deriving DecidableEq

/-- The argument vector `transcodeStart` dispatches a worker process
with. -/
structure WorkerArgs where
  jobId : String
  s3Key : String
  outputS3Key : String
  resolutionPreset : String
  deriving DecidableEq

/-- The response of `transcodeStart`: a 400 validation error naming the
failing check, or the submission acknowledgement. -/
inductive TsResp where
  | badRequest (err : String)
  | started (jobId : String)
  deriving DecidableEq

/-- The outcome of one `transcodeStart` call: the response, the job
store it leaves behind, and the worker dispatch if one happened. -/
structure TsResult where
  resp : TsResp
  store : JobStore
  dispatched : Option WorkerArgs
  deriving DecidableEq

/-- `transcodeStart`: validate the request (missing or falsy `s3Key`,
missing preset, blank `s3Key`, unknown preset — each a synchronous 400
with no side effect), then persist the job as `waiting`, spawn the
worker, persist `progressing`, and acknowledge.  `newJobId` and `now`
stand for the generated job id and `Date.now()`. -/
def transcodeStart (store : JobStore) (req : StartReq) (newJobId : String)
    (now : Nat) : TsResult :=
  match req.s3Key with
  | none => { resp := .badRequest "Missing s3Key", store := store,
              dispatched := none }
  | some s3Key =>
    if s3Key = "" then
      { resp := .badRequest "Missing s3Key", store := store, dispatched := none }
    else match req.resolutionPreset with
    | none => { resp := .badRequest "Missing resolutionPreset", store := store,
                dispatched := none }
    | some resolutionPreset =>
      if resolutionPreset = "" then
        { resp := .badRequest "Missing resolutionPreset", store := store,
          dispatched := none }
      else if jsTrim s3Key = "" then
        { resp := .badRequest "Invalid s3Key", store := store,
          dispatched := none }
      else match QUALITY_TO_PRESETS resolutionPreset with
      | none => { resp := .badRequest "Invalid resolution preset",
                  store := store, dispatched := none }
      | some _ =>
        let outputS3Key := computeOutputS3Key s3Key resolutionPreset
        let jobData : JobRow :=
          { job_id := newJobId, job_state := "waiting", input_s3_key := s3Key,
            output_s3_key := outputS3Key, target_quality := resolutionPreset,
            submit_ts := now }
        let store1 := createRow store jobData
        let workerArgs : WorkerArgs :=
          { jobId := newJobId, s3Key := s3Key, outputS3Key := outputS3Key,
            resolutionPreset := resolutionPreset }
        let store2 := updateRows store1 newJobId
          (fun r => { r with job_state := "progressing" })
        { resp := .started newJobId, store := store2,
          dispatched := some workerArgs }

/-- The response of `jobCallback`. -/
inductive CbResp where
  | notFound
  | ok
  deriving DecidableEq

/-- The outcome of one `jobCallback` call. -/
structure CbResult where
  resp : CbResp
  store : JobStore
  deriving DecidableEq

/-- The source's `success && detail && detail.outputS3Key` guard: the
truthy output key of a successful callback, if any. -/
def cbOutputKey (body : CallbackBody) : Option String :=
  if body.success then
    match body.detail with
    | some d =>
      match d.outputS3Key with
      | some s => if s = "" then none else some s
      | none => none
    | none => none
  else none

/-- `jobCallback`: 404 on an unknown id; otherwise overwrite the job's
state with the terminal state matching `success`, store the raw body as
`callback_data`, and — on success with a truthy `detail.outputS3Key` —
also overwrite `output_s3_key`.  The current state is never consulted.
-/
def jobCallback (store : JobStore) (jobId : String) (body : CallbackBody) :
    CbResult :=
  match readOne store jobId with
  | none => { resp := .notFound, store := store }
  | some _ =>
    let newStore := updateRows store jobId (fun r =>
      let r1 := { r with
        job_state := if body.success then "completed" else "failed",
        callback_data := some body }
      match cbOutputKey body with
      | some s => { r1 with output_s3_key := s }
      | none => r1)
    { resp := .ok, store := newStore }

/-! ## The worker execution pipeline (`processVideoFile`) -/

/-- The collaborators one worker run sees: the blob store's contents at
staging time, and whether the probe, the engine invocation and the
upload succeed. -/
structure WorkerEnv where
  blobStore : String → Option String
  probeOk : Bool := true
  engineOk : Bool := true
  uploadOk : Bool := true

/-- The externally visible steps of one worker run. -/
inductive WEvent where
  | download (key : String)
  | probe
  | engineInvoke
  | upload (key : String)
  deriving DecidableEq

/-- The outcome of one worker run: its step trace, the callback body it
reports, and whether the process exits normally. -/
structure WorkerRun where
  events : List WEvent
  callbackBody : CallbackBody
  exitOk : Bool

/-- The success result object of `processVideoFile`. -/
def workerSuccessBody (jobId s3Key outputS3Key resolutionPreset : String) :
    CallbackBody :=
  { success := true
    detail := some
      { inputS3Key := some s3Key, outputS3Key := some outputS3Key,
        quality := some resolutionPreset, jobId := some jobId,
        errorStack := "" } }

/-- The error result object of the `catch` block of `processVideoFile`:
`errorStack` carries the thrown error. -/
def workerFailBody (jobId s3Key outputS3Key resolutionPreset errMsg : String) :
    CallbackBody :=
  { success := false
    detail := some
      { inputS3Key := some s3Key, outputS3Key := some outputS3Key,
        quality := some resolutionPreset, jobId := some jobId,
        errorStack := errMsg } }

/-- `s3Service.downloadFile`: rethrows the blob store's error when the
key is absent. -/
def downloadFile (env : WorkerEnv) (key : String) : Except String String :=
  match env.blobStore key with
  | some content => .ok content
  | none => .error "NoSuchKey: The specified key does not exist."

/-- `processVideoFile(jobId, s3Key, outputS3Key, resolutionPreset)`:
stage the input from the blob store, resolve the transcoding
configuration, probe, invoke the engine, upload the output, and report
`\x7bsuccess:true, detail\x7d`; a failure at any step jumps to the
`catch` block, which reports `\x7bsuccess:false, detail\x7d` with the
error in `errorStack` and exits abnormally. -/
def processVideoFile (jobId s3Key outputS3Key resolutionPreset : String)
    (env : WorkerEnv) : WorkerRun :=
  let tempInputPath := "temp/input_" ++ basenameOf s3Key
  let fail := fun (events : List WEvent) (errMsg : String) =>
    { events := events
      callbackBody := workerFailBody jobId s3Key outputS3Key resolutionPreset errMsg
      exitOk := false : WorkerRun }
  match downloadFile env s3Key with
  | .error e => fail [.download s3Key] e
  | .ok _ =>
    match createTranscodingConfig
        { input := { path := tempInputPath }, quality := resolutionPreset } with
    | .error e => fail [.download s3Key] e
    | .ok _ =>
      if !env.probeOk then
        fail [.download s3Key, .probe] "ffprobe failed: probe error"
      else if !env.engineOk then
        fail [.download s3Key, .probe, .engineInvoke]
          "Transcoding failed: FFmpeg failed: engine error"
      else if !env.uploadOk then
        fail [.download s3Key, .probe, .engineInvoke, .upload outputS3Key]
          "upload error"
      else
        { events := [.download s3Key, .probe, .engineInvoke, .upload outputS3Key]
          callbackBody := workerSuccessBody jobId s3Key outputS3Key resolutionPreset
          exitOk := true }

/-! ## Concrete fixtures used by witnesses and counterexamples -/

/-- A job row as `transcodeStart` persists it for
`uploads/video.mp4` at preset `720p30av1`, already progressing. -/
def videoRow : JobRow :=
  { job_id := "j1", job_state := "progressing",
    input_s3_key := "uploads/video.mp4",
    output_s3_key := "uploads/video_720p30av1.mp4",
    target_quality := "720p30av1", submit_ts := 0 }

/-- The success callback a worker sends for `videoRow`, echoing the
output key it was given. -/
def okCallbackBody : CallbackBody :=
  { success := true
    detail := some
      { inputS3Key := some "uploads/video.mp4",
        outputS3Key := some "uploads/video_720p30av1.mp4",
        quality := some "720p30av1", jobId := some "j1", errorStack := "" } }

/-- A success callback whose detail carries a DIFFERENT output key than
the one fixed at creation. -/
def movedCallbackBody : CallbackBody :=
  { success := true
    detail := some { outputS3Key := some "elsewhere/video.mp4" } }

/-- `videoRow` after a first success callback: already terminal. -/
def completedVideoRow : JobRow :=
  { job_id := "j1", job_state := "completed",
    input_s3_key := "uploads/video.mp4",
    output_s3_key := "uploads/video_720p30av1.mp4",
    target_quality := "720p30av1", submit_ts := 0,
    callback_data := some okCallbackBody }

/-- A job flipped to `failed` with no callback payload — the store row
the spawn-error handler of `transcodeStart` leaves behind
(`job_state` updated, `callback_data` still null). -/
def failedRowNoPayload : JobRow :=
  { job_id := "j9", job_state := "failed",
    input_s3_key := "uploads/clip.mp4",
    output_s3_key := "uploads/clip_720p30av1.mp4",
    target_quality := "720p30av1", submit_ts := 0 }

/-- A worker environment whose blob store is empty: every staged input
is missing. -/
def emptyBlobEnv : WorkerEnv :=
  { blobStore := fun _ => none }

/-! ## Helper lemmas -/

/-- Two lists that are permutations of each other and have at most one
element are equal. -/
theorem perm_eq_of_length_le_one {α : Type _} {l l' : List α}
    (hp : l.Perm l') (h : l.length ≤ 1) : l = l' := by
  match l, h with
  | [], _ => exact hp.nil_eq
  | [a], _ => exact (List.perm_singleton.mp hp.symm).symm
  | a :: b :: t, h => simp at h

/-- A filter object with no duplicate keys binds each key at most
once. -/
theorem filter_key_length_le_one (l : FilterObj) (t : Nat)
    (h : (l.map filterKey).Nodup) :
    (l.filter (fun e => filterKey e == t)).length ≤ 1 := by
  induction l with
  | nil => simp
  | cons e l ih =>
    simp only [List.map_cons, List.nodup_cons] at h
    rw [List.filter_cons]
    by_cases he : filterKey e = t
    · have hcond : (filterKey e == t) = true := by simp [he]
      rw [if_pos hcond]
      suffices hnil : List.filter (fun e2 => filterKey e2 == t) l = [] by
        simp [hnil]
      rw [List.filter_eq_nil_iff]
      intro a ha
      simp only [beq_iff_eq]
      intro hat
      exact h.1 (by rw [he, ← hat]; exact List.mem_map_of_mem filterKey ha)
    · have hcond : (filterKey e == t) = false := by simp [he]
      rw [if_neg (by simp [hcond])]
      exact ih h.2

/-- Key lookup on a duplicate-free filter object is invariant under
permutation of the bindings. -/
theorem lookupKey_perm {l l' : FilterObj} (t : Nat) (hp : l.Perm l')
    (h : (l.map filterKey).Nodup) : lookupKey t l = lookupKey t l' := by
  unfold lookupKey
  congr 1
  exact perm_eq_of_length_le_one (hp.filter _)
    (filter_key_length_le_one l t h)

/-- The generated filter chain of a duplicate-free filter object is
invariant under permutation of the bindings. -/
theorem filterChainOf_perm {l l' : FilterObj} (hp : l.Perm l')
    (h : (l.map filterKey).Nodup) : filterChainOf l = filterChainOf l' := by
  unfold filterChainOf getScale getFps getDeinterlace getDenoise getCrop
    getPad getCustom
  rw [lookupKey_perm 0 hp h, lookupKey_perm 1 hp h, lookupKey_perm 2 hp h,
    lookupKey_perm 3 hp h, lookupKey_perm 4 hp h, lookupKey_perm 5 hp h,
    lookupKey_perm 6 hp h]

/-- `readOne` after `updateRows` of the same id, for an update that
keeps the key. -/
theorem readOne_updateRows (s : JobStore) (id : String) (f : JobRow → JobRow)
    (hf : ∀ r, (f r).job_id = r.job_id) :
    readOne (updateRows s id f) id = (readOne s id).map f := by
  induction s with
  | nil => rfl
  | cons r s ih =>
    simp only [updateRows, List.map_cons, readOne] at *
    by_cases hr : r.job_id = id
    · have hb : (r.job_id == id) = true := by simp [hr]
      have hb' : ((f r).job_id == id) = true := by simp [hf r, hr]
      simp [hb, hb', List.find?_cons]
    · have hb : (r.job_id == id) = false := by simp [hr]
      simp only [hb, Bool.false_eq_true, if_false, List.find?_cons]
      exact ih

/-- `readOne` over a store holding no row of the id. -/
theorem readOne_eq_none (s : JobStore) (id : String)
    (h : ∀ r ∈ s, r.job_id ≠ id) : readOne s id = none := by
  rw [readOne, List.find?_eq_none]
  intro r hr
  simp [h r hr]

/-- `readOne` after appending a row to a store holding no row of the
id. -/
theorem readOne_append_fresh (s : JobStore) (row : JobRow) (id : String)
    (h : ∀ r ∈ s, r.job_id ≠ id) :
    readOne (createRow s row) id =
      if row.job_id = id then some row else none := by
  unfold createRow
  induction s with
  | nil =>
    by_cases hr : row.job_id = id
    · simp [readOne, List.find?_cons, hr]
    · simp [readOne, List.find?_cons, hr]
  | cons r s ih =>
    have hr : r.job_id ≠ id := h r (List.mem_cons_self r s)
    have hb : (r.job_id == id) = false := by simp [hr]
    simp only [List.cons_append, readOne, List.find?_cons, hb]
    exact ih (fun x hx => h x (List.mem_cons_of_mem r hx))

/-- Specialisation of `readOne_updateRows` to the `progressing` update
of `transcodeStart`. -/
theorem readOne_updateRows_state (s : JobStore) (id : String) (st : String) :
    readOne (updateRows s id (fun r => { r with job_state := st })) id =
      (readOne s id).map (fun r => { r with job_state := st }) :=
  readOne_updateRows s id (fun r => { r with job_state := st })
    (fun _ => rfl)

/-- A known id yields a row from `readOne`. -/
theorem readOne_isSome_of_mem (s : JobStore) (id : String) (r : JobRow)
    (hr : r ∈ s) (hid : r.job_id = id) : ∃ r0, readOne s id = some r0 := by
  have : (List.find? (fun x => x.job_id == id) s).isSome := by
    rw [List.find?_isSome]
    exact ⟨r, hr, by simp [hid]⟩
  exact Option.isSome_iff_exists.mp this

/-- The framerate guard of `validateOutput` fires exactly on a present
negative value (a present zero is falsy and skipped). -/
theorem framerateBad_iff (x : Option Int) :
    framerateBad x = true ↔ ∃ f, x = some f ∧ f < 0 := by
  cases x
  · simp [framerateBad]
  · simp [framerateBad]; omega

/-- Every rejection of `validateOutput` names one of the four output
fields. -/
theorem validateOutput_error_msgs (o : OutputCfg) (e : String)
    (h : validateOutput o = .error e) :
    e = "Output width must be a positive number" ∨
    e = "Output height must be a positive number" ∨
    e = "Output framerate must be a positive number" ∨
    e = "CRF must be a number between 0 and 51" := by
  unfold validateOutput at h
  split_ifs at h <;> simp_all

/-! ## The claims -/

/-- Claim C7: the produced filter chain always lists filters in the
fixed order scale → framerate-change → deinterlace → denoise → crop →
pad → custom, regardless of the order the keys appear in the input
filter configuration (first conjunct: `generateVideoFilters` is
invariant under permutation of a duplicate-free filter object); in
particular a filter override binding `crop` and `scale` in reverse
order still produces a filter-chain text listing `scale` before `crop`
(second conjunct). -/
theorem generateVideoFilters_fixed_order :
    (∀ (fo fo' : FilterObj), fo.Perm fo' → (fo.map filterKey).Nodup →
      generateVideoFilters fo = generateVideoFilters fo') ∧
    generateVideoFilters
        [FilterEntry.crop { width := 640, height := 360 },
          FilterEntry.scale { width := 1280, height := 720 }] =
      ["-vf",
        "scale=1280:720:force_original_aspect_ratio=decrease:flags=bicubic,crop=640:360:0:0"] := by
  constructor
  · intro fo fo' hp h
    unfold generateVideoFilters
    rw [filterChainOf_perm hp h]
  · decide

/-- Witness for C7: the reverse-order filter object of the claim
produces the same arguments as its key-sorted permutation. -/
theorem generateVideoFilters_fixed_order_witness :
    generateVideoFilters
        [FilterEntry.crop { width := 640, height := 360 },
          FilterEntry.scale { width := 1280, height := 720 }] =
      generateVideoFilters
        [FilterEntry.scale { width := 1280, height := 720 },
          FilterEntry.crop { width := 640, height := 360 }] :=
  generateVideoFilters_fixed_order.1 _ _ (by decide) (by decide)

/-- Claim C8: in the configuration resolver an empty caller filter or
advanced override is substituted wholesale by the preset's own value,
while a non-empty override fully replaces the preset's value — a
replace, not a deep merge.  The last conjunct shows the wholesale
substitution end to end: with both overrides empty, the resolved output
of the `720p30av1` preset carries exactly the preset's advanced
arguments followed by the filter arguments generated from the preset's
own filters. -/
theorem resolver_overrides_replace :
    (∀ q : QualityPreset, resolveFilters [] (some q) = .ok q.filters) ∧
    (∀ q : QualityPreset, resolveAdvanced {} (some q) = .ok q.advanced) ∧
    (∀ (fo : FilterObj) (qc : Option QualityPreset), fo ≠ [] →
      resolveFilters fo qc = .ok fo) ∧
    (∀ (adv : Advanced) (qc : Option QualityPreset), adv.isEmptyObj = false →
      resolveAdvanced adv qc = .ok adv) ∧
    (createTranscodingConfig { input := { path := "temp/input_video.mp4" } }).toOption.map
        (fun c => c.output.additionalArgs) =
      some (some ["-svtav1-params",
        "hierarchical-levels=2:keyint=90:lookahead=11:lp=10:scm=0:enable-tf=0",
        "-vf", "fps=30"]) := by
  refine ⟨fun q => rfl, fun q => rfl, ?_, ?_, ?_⟩
  · intro fo qc h
    simp [resolveFilters, h]
  · intro adv qc h
    simp [resolveAdvanced, h]
  · decide

/-- Witness for C8: a non-empty caller filter override fully replaces
the preset's filters of a concrete preset record. -/
theorem resolver_overrides_replace_witness :
    resolveFilters [FilterEntry.fps 24]
        (some { width := 1280, height := 720, crf := 49, preset := "12",
                filters := [FilterEntry.fps 30], advanced := {} }) =
      .ok [FilterEntry.fps 24] :=
  resolver_overrides_replace.2.2.1 _ _ (by decide)

/-- Counterexample to claim C9, at three concrete resolver inputs.
First: a merged width of 0 (via an advanced override) is accepted by
`createTranscodingConfig` with no hard failure, although 0 is not
positive.  Second and third: a crf of 55, inside the engine-defined av1
quality bound (max 63), is rejected — the check uses the fixed range
0–51, not the codec's bound.  Fourth: the unknown preset name
`4k-mystery` is not rejected; the resolution is silently defaulted from
the codec defaults (896×504). -/
theorem resolver_validation_cex :
    ((createTranscodingConfig
        { input := { path := "in.mp4" }, filters := [.fps 30],
          advanced := { width := some 0 } }).toOption.map
      (fun c => c.output.width) = some 0) ∧
    (createTranscodingConfig
        { input := { path := "in.mp4" }, filters := [.fps 30],
          advanced := { crf := some 55 } } =
      .error "CRF must be a number between 0 and 51") ∧
    ((VIDEO_CODECS "av1").map (fun c => c.quality.max) = some 63 ∧
      (0 : Int) ≤ 55 ∧ (55 : Int) ≤ 63) ∧
    ((createTranscodingConfig
        { input := { path := "in.mp4" }, quality := "4k-mystery",
          filters := [.fps 30], advanced := { crf := some 30 } }).toOption.map
      (fun c => (c.output.width, c.output.height)) = some (896, 504)) := by
  refine ⟨by decide, by rfl, by decide, by decide⟩

/-- Claim C9 (amended): `validateOutput` accepts an output exactly when
width, height and crf are non-negative, crf is at most the fixed bound
51, and any present framerate is non-negative — zero values are falsy
in the source's truthiness guards and skip validation, and the crf
bound is the hard-coded 0–51 range rather than the codec's
engine-defined bound.  A negative width or height is a hard failure
naming the offending field.  An unknown preset name is not itself
rejected: with non-empty overrides, resolution either succeeds (values
silently defaulted from the codec) or fails with one of the four
output-field messages, never with an error about the preset name. -/
theorem resolver_validation_amended :
    (∀ o : OutputCfg,
      validateOutput o = .ok () ↔
        0 ≤ o.width ∧ 0 ≤ o.height ∧
        (∀ f, o.framerate = some f → 0 ≤ f) ∧
        0 ≤ o.crf ∧ o.crf ≤ 51) ∧
    (∀ o : OutputCfg, o.width < 0 →
      validateOutput o = .error "Output width must be a positive number") ∧
    (∀ o : OutputCfg, 0 ≤ o.width → o.height < 0 →
      validateOutput o = .error "Output height must be a positive number") ∧
    (∀ (input : InputCfg) (q : String) (fo : FilterObj) (adv : Advanced),
      input.path ≠ "" → QUALITY_TO_PRESETS q = none → fo ≠ [] →
      adv.isEmptyObj = false →
      (∃ c, createTranscodingConfig
          { input := input, quality := q, filters := fo, advanced := adv } =
        .ok c) ∨
      (∃ e, createTranscodingConfig
          { input := input, quality := q, filters := fo, advanced := adv } =
        .error e ∧
        (e = "Output width must be a positive number" ∨
          e = "Output height must be a positive number" ∨
          e = "Output framerate must be a positive number" ∨
          e = "CRF must be a number between 0 and 51"))) := by
  refine ⟨?_, ?_, ?_, ?_⟩
  · intro o
    unfold validateOutput
    split_ifs with h1 h2 h3 h4
    · simp only [reduceCtorEq, false_iff, not_and]
      intro hw
      omega
    · simp only [reduceCtorEq, false_iff, not_and]
      intro hw hh
      omega
    · simp only [reduceCtorEq, false_iff, not_and]
      intro hw hh hfr
      obtain ⟨f, hfe, hflt⟩ := (framerateBad_iff o.framerate).mp h3
      have := hfr f hfe
      omega
    · simp only [reduceCtorEq, false_iff, not_and]
      intro hw hh hfr hc
      omega
    · simp only [true_iff]
      have hfr : ∀ f, o.framerate = some f → 0 ≤ f := by
        intro f hfe
        by_contra hneg
        exact h3 ((framerateBad_iff o.framerate).mpr ⟨f, hfe, by omega⟩)
      refine ⟨by omega, by omega, hfr, by omega, by omega⟩
  · intro o hw
    unfold validateOutput
    rw [if_pos (by omega)]
  · intro o hw hh
    unfold validateOutput
    rw [if_neg (by omega), if_pos (by omega)]
  · intro input q fo adv hpath hq hfo hadv
    rcases hr : createTranscodingConfig
        { input := input, quality := q, filters := fo, advanced := adv }
      with e | c
    · refine .inr ⟨e, rfl, ?_⟩
      unfold createTranscodingConfig at hr
      rw [show validateInput input = .ok () from by
        simp [validateInput, hpath]] at hr
      dsimp only at hr
      rw [hq] at hr
      rw [show resolveFilters fo none = .ok fo from by
        simp [resolveFilters, hfo]] at hr
      rw [show resolveAdvanced adv none = .ok adv from by
        simp [resolveAdvanced, hadv]] at hr
      cases hvc : VIDEO_CODECS "av1" with
      | none => exact absurd hvc (by simp [VIDEO_CODECS])
      | some vcc =>
        cases hac : AUDIO_CODECS "aac" with
        | none => exact absurd hac (by simp [AUDIO_CODECS])
        | some acc =>
          rw [hvc, hac] at hr
          dsimp only at hr
          split at hr
          · next e' hvo =>
              cases hr
              exact validateOutput_error_msgs _ _ hvo
          · next u hvo => exact absurd hr (by simp)
    · exact .inl ⟨c, rfl⟩

/-- Claim C1: for every known jobId, `jobCallback` persists a terminal
state matching `success` (completed when true, failed otherwise)
together with the callback payload, regardless of the job's current
state — so a second callback for an already-terminal job is an
idempotent overwrite (last write wins), not an error; for every unknown
jobId it fails with not-found and leaves the store unchanged. -/
theorem jobCallback_spec :
    ∀ (store : JobStore) (jobId : String) (body : CallbackBody),
      ((∃ r ∈ store, r.job_id = jobId) →
        (jobCallback store jobId body).resp = .ok ∧
        ∃ r', readOne (jobCallback store jobId body).store jobId = some r' ∧
          r'.job_state = (if body.success then "completed" else "failed") ∧
          r'.job_state ∈ termState ∧
          r'.callback_data = some body) ∧
      ((∀ r ∈ store, r.job_id ≠ jobId) →
        (jobCallback store jobId body).resp = .notFound ∧
        (jobCallback store jobId body).store = store) := by
  intro store jobId body
  constructor
  · rintro ⟨r, hr, hid⟩
    obtain ⟨r0, hr0⟩ := readOne_isSome_of_mem store jobId r hr hid
    have hupd := readOne_updateRows store jobId
      (fun r =>
        let r1 := { r with
          job_state := if body.success then "completed" else "failed",
          callback_data := some body }
        match cbOutputKey body with
        | some s2 => { r1 with output_s3_key := s2 }
        | none => r1)
      (by intro x; cases cbOutputKey body <;> rfl)
    have hjc : jobCallback store jobId body =
        { resp := .ok,
          store := updateRows store jobId (fun r =>
            let r1 := { r with
              job_state := if body.success then "completed" else "failed",
              callback_data := some body }
            match cbOutputKey body with
            | some s2 => { r1 with output_s3_key := s2 }
            | none => r1) } := by
      unfold jobCallback
      rw [hr0]
    rw [hjc]
    refine ⟨rfl, ?_⟩
    dsimp only
    rw [hupd, hr0, Option.map_some']
    refine ⟨_, rfl, ?_, ?_, ?_⟩
    · cases cbOutputKey body <;> rfl
    · cases cbOutputKey body <;> cases body.success <;> simp [termState]
    · cases cbOutputKey body <;> rfl
  · intro hnone
    unfold jobCallback
    rw [readOne_eq_none store jobId hnone]
    exact ⟨rfl, rfl⟩

/-- Witness for C1: a second callback for `videoRow` already completed
still succeeds and overwrites (last write wins). -/
theorem jobCallback_spec_witness :
    (jobCallback [completedVideoRow] "j1" okCallbackBody).resp = CbResp.ok ∧
    ∃ r', readOne (jobCallback [completedVideoRow] "j1" okCallbackBody).store
      "j1" = some r' ∧
      r'.job_state = (if okCallbackBody.success then "completed" else "failed") ∧
      r'.job_state ∈ termState ∧
      r'.callback_data = some okCallbackBody :=
  (jobCallback_spec [completedVideoRow] "j1" okCallbackBody).1
    ⟨completedVideoRow, List.mem_singleton_self _, rfl⟩

/-- Claim C2: for every valid submission (non-blank s3 key, known
preset) on a store holding no row of the fresh job id, `transcodeStart`
acknowledges with the job id and the state it leaves persisted is
`progressing` — never `waiting` — so a `getJobStatus` immediately after
`transcodeStart` returns `progressing`. -/
theorem create_then_status_progressing
    (store : JobStore) (k p newJobId : String) (now : Nat) (q : QualityPreset)
    (hk : jsTrim k ≠ "") (hp : QUALITY_TO_PRESETS p = some q)
    (hfresh : ∀ r ∈ store, r.job_id ≠ newJobId) :
    (transcodeStart store { s3Key := some k, resolutionPreset := some p }
        newJobId now).resp = .started newJobId ∧
    getJobStatus (transcodeStart store
        { s3Key := some k, resolutionPreset := some p } newJobId now).store
      newJobId = .ok { jobId := newJobId, state := "progressing" } := by
  have hk0 : k ≠ "" := by
    intro h
    rw [h] at hk
    exact hk (by decide)
  have hp0 : p ≠ "" := by
    intro h
    rw [h] at hp
    rw [show QUALITY_TO_PRESETS "" = none from by decide] at hp
    exact Option.noConfusion hp
  unfold transcodeStart
  dsimp only
  rw [if_neg hk0, if_neg hp0, if_neg hk, hp]
  dsimp only
  refine ⟨rfl, ?_⟩
  unfold getJobStatus
  rw [readOne_updateRows_state, readOne_append_fresh store _ newJobId hfresh,
    if_pos rfl, Option.map_some']
  rfl

/-- Witness for C2: a concrete valid submission on the empty store is
immediately `progressing`. -/
theorem create_then_status_progressing_witness :
    (transcodeStart []
        { s3Key := some "uploads/video.mp4",
          resolutionPreset := some "720p30av1" } "job1" 0).resp =
      TsResp.started "job1" ∧
    getJobStatus (transcodeStart []
        { s3Key := some "uploads/video.mp4",
          resolutionPreset := some "720p30av1" } "job1" 0).store "job1" =
      .ok { jobId := "job1", state := "progressing" } :=
  create_then_status_progressing [] "uploads/video.mp4" "720p30av1" "job1" 0
    { width := 1280, height := 720, crf := 49, preset := "12",
      filters := [.fps 30]
      advanced :=
        { additionalArgs := some ["-svtav1-params",
            "hierarchical-levels=2:keyint=90:lookahead=11:lp=10:scm=0:enable-tf=0"] } }
    (by decide) (by decide) (by simp)

/-- Claim C3: the output locator is a deterministic function of
(inputLocator, presetName) alone — the dispatched output key of two
submissions of the same pair is identical whatever the store, job id
and submission time (first conjunct), a valid submission dispatches and
persists exactly `computeOutputS3Key` of the pair (second conjunct),
and for `uploads/video.mp4` at `720p30av1` that locator is
`uploads/video_720p30av1.mp4` (third conjunct). -/
theorem outputLocator_deterministic :
    (∀ (s1 s2 : JobStore) (j1 j2 : String) (n1 n2 : Nat) (k p : String),
      (transcodeStart s1 { s3Key := some k, resolutionPreset := some p }
          j1 n1).dispatched.map (fun a => a.outputS3Key) =
        (transcodeStart s2 { s3Key := some k, resolutionPreset := some p }
          j2 n2).dispatched.map (fun a => a.outputS3Key)) ∧
    (∀ (store : JobStore) (jobId : String) (now : Nat) (k p : String)
        (q : QualityPreset), jsTrim k ≠ "" → QUALITY_TO_PRESETS p = some q →
      (∀ r ∈ store, r.job_id ≠ jobId) →
      (transcodeStart store { s3Key := some k, resolutionPreset := some p }
          jobId now).dispatched.map (fun a => a.outputS3Key) =
        some (computeOutputS3Key k p) ∧
      ∃ r', readOne (transcodeStart store
          { s3Key := some k, resolutionPreset := some p } jobId now).store
        jobId = some r' ∧ r'.output_s3_key = computeOutputS3Key k p) ∧
    computeOutputS3Key "uploads/video.mp4" "720p30av1" =
      "uploads/video_720p30av1.mp4" := by
  refine ⟨?_, ?_, by decide⟩
  · intro s1 s2 j1 j2 n1 n2 k p
    unfold transcodeStart
    dsimp only
    by_cases hk : k = ""
    · rw [if_pos hk, if_pos hk]
    · rw [if_neg hk, if_neg hk]
      by_cases hp : p = ""
      · rw [if_pos hp, if_pos hp]
      · rw [if_neg hp, if_neg hp]
        by_cases ht : jsTrim k = ""
        · rw [if_pos ht, if_pos ht]
        · rw [if_neg ht, if_neg ht]
          cases QUALITY_TO_PRESETS p <;> rfl
  · intro store jobId now k p q hk hp hfresh
    have hk0 : k ≠ "" := by
      intro h
      rw [h] at hk
      exact hk (by decide)
    have hp0 : p ≠ "" := by
      intro h
      rw [h] at hp
      rw [show QUALITY_TO_PRESETS "" = none from by decide] at hp
      exact Option.noConfusion hp
    unfold transcodeStart
    dsimp only
    rw [if_neg hk0, if_neg hp0, if_neg hk, hp]
    dsimp only
    refine ⟨rfl, ?_⟩
    rw [readOne_updateRows_state, readOne_append_fresh store _ jobId hfresh,
      if_pos rfl, Option.map_some']
    exact ⟨_, rfl, rfl⟩

/-- Witness for C3: the dispatched output key of a concrete valid
submission is the deterministic locator of the pair. -/
theorem outputLocator_deterministic_witness :
    (transcodeStart []
        { s3Key := some "uploads/video.mp4",
          resolutionPreset := some "720p30av1" } "j1" 0).dispatched.map
      (fun a => a.outputS3Key) =
      some (computeOutputS3Key "uploads/video.mp4" "720p30av1") :=
  (outputLocator_deterministic.2.1 [] "j1" 0 "uploads/video.mp4" "720p30av1"
    { width := 1280, height := 720, crf := 49, preset := "12",
      filters := [.fps 30]
      advanced :=
        { additionalArgs := some ["-svtav1-params",
            "hierarchical-levels=2:keyint=90:lookahead=11:lp=10:scm=0:enable-tf=0"] }
    } (by decide) (by decide) (by simp)).1

/-- Claim C5: a submission with a missing or blank s3 key, or with an
unknown preset name, is rejected synchronously with a 400 validation
error, the job store is left untouched (no job row persisted) and no
worker is dispatched. -/
theorem invalid_submission_rejected
    (store : JobStore) (req : StartReq) (newJobId : String) (now : Nat)
    (h : (∀ k, req.s3Key = some k → jsTrim k = "") ∨
      (∃ p, req.resolutionPreset = some p ∧ QUALITY_TO_PRESETS p = none)) :
    (∃ e, (transcodeStart store req newJobId now).resp = .badRequest e) ∧
    (transcodeStart store req newJobId now).store = store ∧
    (transcodeStart store req newJobId now).dispatched = none := by
  obtain ⟨sk, rp⟩ := req
  unfold transcodeStart
  cases sk with
  | none => exact ⟨⟨_, rfl⟩, rfl, rfl⟩
  | some k =>
    dsimp only
    by_cases hk : k = ""
    · rw [if_pos hk]
      exact ⟨⟨_, rfl⟩, rfl, rfl⟩
    · rw [if_neg hk]
      cases rp with
      | none => exact ⟨⟨_, rfl⟩, rfl, rfl⟩
      | some p =>
        dsimp only
        by_cases hp : p = ""
        · rw [if_pos hp]
          exact ⟨⟨_, rfl⟩, rfl, rfl⟩
        · rw [if_neg hp]
          by_cases hkt : jsTrim k = ""
          · rw [if_pos hkt]
            exact ⟨⟨_, rfl⟩, rfl, rfl⟩
          · rw [if_neg hkt]
            have hq : QUALITY_TO_PRESETS p = none := by
              rcases h with h | ⟨p', hp', hq'⟩
              · exact absurd (h k rfl) hkt
              · cases hp'
                exact hq'
            rw [hq]
            exact ⟨⟨_, rfl⟩, rfl, rfl⟩

/-- Witness for C5: the unknown preset `4k-mystery` is rejected on the
empty store with no side effects. -/
theorem invalid_submission_rejected_witness :
    (∃ e, (transcodeStart []
        { s3Key := some "uploads/video.mp4",
          resolutionPreset := some "4k-mystery" } "job1" 0).resp =
      .badRequest e) ∧
    (transcodeStart []
        { s3Key := some "uploads/video.mp4",
          resolutionPreset := some "4k-mystery" } "job1" 0).store = [] ∧
    (transcodeStart []
        { s3Key := some "uploads/video.mp4",
          resolutionPreset := some "4k-mystery" } "job1" 0).dispatched = none :=
  invalid_submission_rejected []
    { s3Key := some "uploads/video.mp4",
      resolutionPreset := some "4k-mystery" } "job1" 0
    (.inr ⟨"4k-mystery", rfl, by decide⟩)

/-- Counterexample to claim C4: `failedRowNoPayload` is terminal
(`failed`) but carries no embedded callback payload — exactly what the
spawn-error path of `transcodeStart` persists — and `getJobStatus`
answers with `jobId` and `state` only, with no callback payload,
although the claim requires one for every terminal state. -/
theorem getJobStatus_terminal_no_payload_cex :
    failedRowNoPayload.job_state ∈ termState ∧
    failedRowNoPayload.callback_data = none ∧
    getJobStatus [failedRowNoPayload] "j9" =
      .ok { jobId := "j9", state := "failed", callback := none } := by
  refine ⟨by decide, rfl, by decide⟩

/-- Claim C4 (amended): `getJobStatus` fails not-found exactly on an
unknown id; on a known id it returns the row's `jobId` and `state`, and
the embedded callback payload is additionally returned exactly when the
state is terminal and a payload is embedded (`callback_data` non-null)
— a terminal job without an embedded payload yields no callback
field. -/
theorem getJobStatus_spec :
    ∀ (store : JobStore) (jobId : String),
      ((∀ r ∈ store, r.job_id ≠ jobId) →
        getJobStatus store jobId = .notFound) ∧
      (∀ job, readOne store jobId = some job →
        getJobStatus store jobId = .ok
          { jobId := job.job_id, state := job.job_state,
            callback := if job.job_state ∈ termState then job.callback_data
              else none }) := by
  intro store jobId
  constructor
  · intro h
    unfold getJobStatus
    rw [readOne_eq_none store jobId h]
  · intro job hj
    unfold getJobStatus
    rw [hj]
    dsimp only
    by_cases ht : job.job_state ∈ termState
    · cases hc : job.callback_data with
      | some cb =>
        rw [if_pos ht, if_pos ht]
      | none =>
        rw [if_pos ht, if_pos ht]
    · rw [if_neg ht, if_neg ht]

/-- Witness for C4 (amended): status of the dispatch-failed fixture. -/
theorem getJobStatus_spec_witness :
    getJobStatus [failedRowNoPayload] "j9" = .ok
      { jobId := failedRowNoPayload.job_id,
        state := failedRowNoPayload.job_state,
        callback := if failedRowNoPayload.job_state ∈ termState then
          failedRowNoPayload.callback_data else none } :=
  (getJobStatus_spec [failedRowNoPayload] "j9").2 failedRowNoPayload (by decide)

/-- Counterexample to claim C6: starting from the store `transcodeStart`
leaves for `uploads/video.mp4` at `720p30av1`, a success callback whose
detail carries the different output key `elsewhere/video.mp4`
overwrites the persisted output locator fixed at creation. -/
theorem outputLocator_overwritten_cex :
    (jobCallback (transcodeStart []
        { s3Key := some "uploads/video.mp4",
          resolutionPreset := some "720p30av1" } "j1" 0).store "j1"
      movedCallbackBody).store.map (fun r => r.output_s3_key) =
      ["elsewhere/video.mp4"] ∧
    computeOutputS3Key "uploads/video.mp4" "720p30av1" =
      "uploads/video_720p30av1.mp4" ∧
    ("elsewhere/video.mp4" : String) ≠ "uploads/video_720p30av1.mp4" := by
  refine ⟨by decide, by decide, by decide⟩

/-- Claim C6 (amended): the persisted output locator is unchanged by
every callback except a success callback whose detail carries a truthy
`outputS3Key` — a failure callback, or a success callback without that
detail key, preserves every row's `output_s3_key` (first conjunct); a
success callback carrying the truthy key `s` overwrites the locator of
the callback's job with `s` (second conjunct) while every other row is
kept whole (third conjunct). -/
theorem jobCallback_outputLocator :
    ∀ (store : JobStore) (jobId : String) (body : CallbackBody),
      (cbOutputKey body = none →
        (jobCallback store jobId body).store.map (fun r => r.output_s3_key) =
          store.map (fun r => r.output_s3_key)) ∧
      (∀ s, cbOutputKey body = some s →
        ∀ r' ∈ (jobCallback store jobId body).store, r'.job_id = jobId →
          r'.output_s3_key = s) ∧
      (∀ r ∈ store, r.job_id ≠ jobId →
        r ∈ (jobCallback store jobId body).store) := by
  intro store jobId body
  cases h0 : readOne store jobId with
  | none =>
    have hjc : jobCallback store jobId body =
        { resp := .notFound, store := store } := by
      unfold jobCallback
      rw [h0]
    rw [hjc]
    refine ⟨fun _ => rfl, ?_, fun r hr _ => hr⟩
    intro s hs r' hr' hid
    exfalso
    have hnone := List.find?_eq_none.mp h0 r' hr'
    simp [hid] at hnone
  | some r0 =>
    have hjc : jobCallback store jobId body =
        { resp := .ok,
          store := updateRows store jobId (fun r =>
            let r1 := { r with
              job_state := if body.success then "completed" else "failed",
              callback_data := some body }
            match cbOutputKey body with
            | some s2 => { r1 with output_s3_key := s2 }
            | none => r1) } := by
      unfold jobCallback
      rw [h0]
    rw [hjc]
    dsimp only
    refine ⟨?_, ?_, ?_⟩
    · intro hnone
      unfold updateRows
      rw [List.map_map]
      apply List.map_congr_left
      intro r hr
      dsimp only [Function.comp]
      by_cases hb : r.job_id = jobId
      · have hbt : (r.job_id == jobId) = true := by simp [hb]
        rw [hbt]
        simp only [if_true]
        rw [hnone]
      · have hbf : (r.job_id == jobId) = false := by simp [hb]
        rw [hbf]
        simp
    · intro s hs r' hr' hid
      unfold updateRows at hr'
      obtain ⟨r, hr, hre⟩ := List.mem_map.mp hr'
      by_cases hb : r.job_id = jobId
      · have hbt : (r.job_id == jobId) = true := by simp [hb]
        rw [hbt] at hre
        simp only [if_true] at hre
        rw [← hre]
        rw [hs]
      · have hbf : (r.job_id == jobId) = false := by simp [hb]
        rw [hbf] at hre
        simp only [Bool.false_eq_true, if_false] at hre
        exact absurd (hre ▸ hid) hb
    · intro r hr hne
      refine List.mem_map.mpr ⟨r, hr, ?_⟩
      have hbf : (r.job_id == jobId) = false := by simp [hne]
      rw [hbf]
      simp

/-- Witness for C6 (amended): a failure callback for `videoRow` leaves
the persisted output locator untouched. -/
theorem jobCallback_outputLocator_witness :
    (jobCallback [videoRow] "j1"
        { success := false, detail := none }).store.map
      (fun r => r.output_s3_key) =
      [videoRow].map (fun r => r.output_s3_key) :=
  (jobCallback_outputLocator [videoRow] "j1"
    { success := false, detail := none }).1 rfl

/-- Claim C10: a worker run whose staged input is missing from the blob
store never invokes the transcoding engine (staging precedes engine
invocation and aborts the run) and always reports a callback with
`success:false` whose detail carries a non-empty `errorStack`; the
process then exits abnormally. -/
theorem worker_missing_input
    (jobId k outKey preset : String) (env : WorkerEnv)
    (h : env.blobStore k = none) :
    WEvent.engineInvoke ∉ (processVideoFile jobId k outKey preset env).events ∧
    (processVideoFile jobId k outKey preset env).callbackBody.success = false ∧
    (∃ d, (processVideoFile jobId k outKey preset env).callbackBody.detail =
      some d ∧ d.errorStack ≠ "") ∧
    (processVideoFile jobId k outKey preset env).exitOk = false := by
  have hpr : processVideoFile jobId k outKey preset env =
      { events := [.download k]
        callbackBody := workerFailBody jobId k outKey preset
          "NoSuchKey: The specified key does not exist."
        exitOk := false } := by
    unfold processVideoFile downloadFile
    rw [h]
  rw [hpr]
  refine ⟨by simp, rfl, ⟨_, rfl, ?_⟩, rfl⟩
  change ("NoSuchKey: The specified key does not exist." : String) ≠ ""
  decide

/-- Witness for C10: a run against the empty blob store. -/
theorem worker_missing_input_witness :
    WEvent.engineInvoke ∉ (processVideoFile "j1" "uploads/missing.mp4"
      "uploads/missing_720p30av1.mp4" "720p30av1" emptyBlobEnv).events ∧
    (processVideoFile "j1" "uploads/missing.mp4"
      "uploads/missing_720p30av1.mp4" "720p30av1"
      emptyBlobEnv).callbackBody.success = false ∧
    (∃ d, (processVideoFile "j1" "uploads/missing.mp4"
      "uploads/missing_720p30av1.mp4" "720p30av1"
      emptyBlobEnv).callbackBody.detail = some d ∧ d.errorStack ≠ "") ∧
    (processVideoFile "j1" "uploads/missing.mp4"
      "uploads/missing_720p30av1.mp4" "720p30av1" emptyBlobEnv).exitOk =
      false :=
  worker_missing_input "j1" "uploads/missing.mp4"
    "uploads/missing_720p30av1.mp4" "720p30av1" emptyBlobEnv rfl
